import Mathlib

/-!
Shallow embedding of the portfolio allocation optimizer of the
`debdevops/stocktrading` repository (`src/AI.Services`), covering
`services/portfolio_optimizer.py`, the request/response models of
`models/portfolio_models.py`, and the `/api/ai/portfolio/optimize`
endpoint of `main.py`.

Numeric values are modelled as rationals (`ℚ`): the source computes with
IEEE doubles, which we idealize as exact arithmetic, except where a
zero denominator matters — numpy then silently yields a non-finite
value (inf or nan, with warnings filtered out at module import), which
we model explicitly (`npDiv` below returns `none` in that case).
External collaborators (yfinance downloads, the scipy SLSQP solver,
sklearn LedoitWolf, numpy sqrt) are parameters of the embedding,
gathered in the `World` structure.
-/

namespace StockTrading

/-- Risk tolerance levels, from `models/portfolio_models.py` (`RiskTolerance`). -/
inductive RiskTolerance
  | conservative
  | moderate
  | aggressive
deriving DecidableEq, Repr

/-- Optimization objectives, from `models/portfolio_models.py` (`OptimizationObjective`). -/
inductive OptimizationObjective
  | max_return
  | min_risk
  | max_sharpe
  | equal_weight
deriving DecidableEq, Repr

/-- A user-supplied constraint, from `models/portfolio_models.py`
(`PortfolioConstraint`). The source field `type` is a Lean keyword and is
renamed `ctype`; it holds one of the strings "max_weight", "min_weight",
"sector_limit". -/
structure PortfolioConstraint where
  ctype : String
  symbol : Option String
  sector : Option String
  value : ℚ
deriving DecidableEq, Repr

/-- The optimization request body, from `models/portfolio_models.py`
(`PortfolioOptimizationRequest`). -/
structure PortfolioOptimizationRequest where
  symbols : List String
  risk_tolerance : RiskTolerance
  investment_amount : ℚ
  objective : OptimizationObjective
  constraints : List PortfolioConstraint
  rebalance_frequency : String
deriving DecidableEq, Repr

/-- `PortfolioOptimizer.risk_free_rate` (2%). -/
def riskFreeRate : ℚ := 2 / 100

/-- `PortfolioOptimizer.trading_days` (252). -/
def tradingDays : ℚ := 252

/-- A solver-ready constraint as handed to `scipy.optimize.minimize`.
The source builds closures; we represent each closure by the tag of the
code path that created it together with its captured data.  The
`sectorLimit` form is modelled from the spec: it is the solver-ready
shape a SectorLimit constraint would take ("constrain the sum of weights
for all symbols sharing that sector"); the source never constructs it. -/
inductive SolverConstraint
  | eqSumOne
  | maxWeight (i : Nat) (val : ℚ)
  | minWeight (i : Nat) (val : ℚ)
  | sectorLimit (idxs : List Nat) (val : ℚ)
deriving DecidableEq, Repr

/-- The value of a solver constraint's function at a weight vector:
an `eq` constraint requires the value to be 0, an `ineq` constraint
requires it to be nonnegative. -/
def constraintValue : SolverConstraint → List ℚ → ℚ
  | .eqSumOne, x => x.sum - 1
  | .maxWeight i v, x => v - x.getD i 0
  | .minWeight i v, x => x.getD i 0 - v
  | .sectorLimit idxs v, x => v - (idxs.map (fun i => x.getD i 0)).sum

/-- Python truthiness of the `Optional[str]` field `constraint.symbol`:
`None` and the empty string are falsy. -/
def truthy : Option String → Bool
  | none => false
  | some s => s ≠ ""

/-- `mean_returns.index.get_loc(symbol)`: position of the symbol in the
column index; the pandas `KeyError` on an absent symbol is modelled as
`none`. -/
def get_loc (univ : List String) (s : String) : Option Nat :=
  univ.findIdx? (fun t => t == s)

/-- One iteration of the constraint-building loop of `_optimize_weights`
(portfolio_optimizer.py lines 157-176).  The accumulator carries the
`constraints_list` built so far together with the symbols for which a
"Symbol ... not found in portfolio" warning has been logged. -/
def addConstraint (univ : List String) (acc : List SolverConstraint × List String)
    (c : PortfolioConstraint) : List SolverConstraint × List String :=
  if c.ctype = "max_weight" ∧ truthy c.symbol = true then
    match get_loc univ (c.symbol.getD "") with
    | some i => (acc.1 ++ [SolverConstraint.maxWeight i c.value], acc.2)
    | none => (acc.1, acc.2 ++ [c.symbol.getD ""])
  else if c.ctype = "min_weight" ∧ truthy c.symbol = true then
    match get_loc univ (c.symbol.getD "") with
    | some i => (acc.1 ++ [SolverConstraint.minWeight i c.value], acc.2)
    | none => (acc.1, acc.2 ++ [c.symbol.getD ""])
  else
    acc

/-- The full `constraints_list` of `_optimize_weights`: the Σw = 1 equality
first, then the loop over the user constraints.  Second component: the
logged warnings for dropped symbols. -/
def constraints_list (univ : List String) (cs : List PortfolioConstraint) :
    List SolverConstraint × List String :=
  cs.foldl (addConstraint univ) ([SolverConstraint.eqSumOne], [])

/-- The contribution of a single user constraint to `constraints_list`,
starting from an empty accumulator. -/
def constraintContribution (univ : List String) (c : PortfolioConstraint) :
    List SolverConstraint :=
  (addConstraint univ ([], []) c).1

/-- The warning (dropped-symbol) contribution of a single user constraint. -/
def constraintWarn (univ : List String) (c : PortfolioConstraint) : List String :=
  (addConstraint univ ([], []) c).2

/-- Outcome of the external `scipy.optimize.minimize` call: either a result
object carrying its `success` flag and vector `x`, or a raised numerical
exception. -/
inductive SolverOutcome
  | ok (success : Bool) (x : List ℚ)
  | exn
deriving DecidableEq, Repr

/-- The logging side effect of `_optimize_weights`: `warnFallback` is the
`logger.warning("Optimization failed, using equal weights")` on
non-convergence, `errFallback` the `logger.error` in the `except` branch. -/
inductive OptLog
  | noLog
  | warnFallback
  | errFallback
deriving DecidableEq, Repr

/-- The initial guess `x0 = np.array([1/n_assets] * n_assets)`. -/
def equalWeight (n : Nat) : List ℚ :=
  List.replicate n (1 / (n : ℚ))

/-- `_optimize_weights` (portfolio_optimizer.py lines 144-210).  The solver
is a parameter: it receives the objective tag (standing for the
`objective_func` closure built from `mean_returns`, `cov_matrix` and the
risk-free rate), the data those closures capture, and the built
`constraints_list`; the bounds `(0,1)^n` and `maxiter=1000` are fixed in
the source.  Returns the weight vector, the fallback log, and the list of
dropped-constraint warnings. -/
def optimize_weights
    (solver : OptimizationObjective → List ℚ → List (List ℚ) → List SolverConstraint → SolverOutcome)
    (mean_returns : List ℚ) (cov_matrix : List (List ℚ))
    (objective : OptimizationObjective) (constraints : List PortfolioConstraint)
    (univ : List String) : List ℚ × OptLog × List String :=
  let n_assets := mean_returns.length
  let x0 := equalWeight n_assets
  let cl := constraints_list univ constraints
  match objective with
  | .equal_weight => (x0, OptLog.noLog, cl.2)
  | _ =>
    match solver objective mean_returns cov_matrix cl.1 with
    | .ok true x => (x, OptLog.noLog, cl.2)
    | .ok false _ => (x0, OptLog.warnFallback, cl.2)
    | .exn => (x0, OptLog.errFallback, cl.2)

/-- The weight-vector invariant the spec states for all valid requests:
length `n`, each weight in `[0,1]`, and `Σ weights = 1 ± 1e-4`. -/
def validWeights (n : Nat) (ws : List ℚ) : Prop :=
  ws.length = n ∧ (∀ w ∈ ws, 0 ≤ w ∧ w ≤ 1) ∧ |ws.sum - 1| ≤ 1 / 10000

instance (n : Nat) (ws : List ℚ) : Decidable (validWeights n ws) := by
  unfold validWeights
  infer_instance

/-- A downloaded price frame (`yf.download(...)['Adj Close']`): the shared
date index is implicit, and each symbol owns one column of optional
adjusted-close prices (`none` models a NaN entry). -/
structure PriceFrame where
  symbols : List String
  columns : List (List (Option ℚ))
deriving DecidableEq, Repr

/-- A forward fill of one column: a missing entry takes the most recent
earlier value, carried in `prev`.  This is what pandas does for the valid
methods `'pad'`/`'ffill'`. -/
def ffillCol (prev : Option ℚ) : List (Option ℚ) → List (Option ℚ)
  | [] => []
  | none :: rest => prev :: ffillCol prev rest
  | some v :: rest => some v :: ffillCol (some v) rest

/-- A backward fill of one column (`'backfill'`/`'bfill'`): a reversed
forward fill. -/
def bfillCol (col : List (Option ℚ)) : List (Option ℚ) :=
  (ffillCol none col.reverse).reverse

/-- pandas `DataFrame.fillna(method=...)` on the frame's columns.  pandas
validates the method string before touching any data: only `'pad'`,
`'ffill'`, `'backfill'` and `'bfill'` are accepted, and anything else
raises `ValueError` (modelled as `Except.error` with pandas' message)
regardless of the frame's contents. -/
def fillna (method : String) (cols : List (List (Option ℚ))) :
    Except String (List (List (Option ℚ))) :=
  if method = "pad" ∨ method = "ffill" then
    Except.ok (cols.map (ffillCol none))
  else if method = "backfill" ∨ method = "bfill" then
    Except.ok (cols.map bfillCol)
  else
    Except.error ("Invalid fill method. Expecting pad (ffill) or backfill (bfill). Got " ++ method)

/-- `_fetch_portfolio_data` (portfolio_optimizer.py lines 107-122) applied
to the frame yfinance returned.  The source calls
`data.fillna(method='forward').fillna(method='backward')`; `'forward'` and
`'backward'` are not valid pandas fill methods, so the first call raises
`ValueError`, which the `except` at lines 120-122 logs and re-raises —
the fetch fails for every frame, filling nothing and excluding nothing.
(The `data.to_frame` branch for a single symbol changes only the pandas
container shape, not the data.) -/
def fetch_portfolio_data (raw : PriceFrame) : Except String PriceFrame :=
  match fillna "forward" raw.columns with
  | Except.error e => Except.error e
  | Except.ok cols1 =>
      match fillna "backward" cols1 with
      | Except.error e => Except.error e
      | Except.ok cols2 => Except.ok { raw with columns := cols2 }

/-- Entry of a column at row `t` (`none` past the end, matching NaN). -/
def colEntry (col : List (Option ℚ)) (t : Nat) : Option ℚ :=
  col.getD t none

/-- Number of rows of the shared date index (pandas aligns all columns on
one index, so all columns have this length). -/
def nRows (f : PriceFrame) : Nat :=
  (f.columns.map List.length).foldr max 0

/-- Row `t` of `data.pct_change()`: `(p_t - p_{t-1}) / p_{t-1}` per column,
NaN (`none`) when either price is missing. -/
def pctRow (f : PriceFrame) (t : Nat) : List (Option ℚ) :=
  f.columns.map (fun c =>
    match colEntry c (t - 1), colEntry c t with
    | some p, some q => some ((q - p) / p)
    | _, _ => none)

/-- `data.pct_change().dropna()`: rows 1.. of the percentage changes,
keeping only the rows in which every column is present. -/
def returnsRows (f : PriceFrame) : List (List ℚ) :=
  ((List.range (nRows f)).drop 1).filterMap (fun t =>
    let r := pctRow f t
    if r.all Option.isSome then some (r.filterMap id) else none)

/-- Column `i` of a row-major returns matrix. -/
def colOf (rows : List (List ℚ)) (i : Nat) : List ℚ :=
  rows.map (fun r => r.getD i 0)

/-- Arithmetic mean of a series.  (For an empty series pandas yields NaN;
the ℚ model yields 0 — no claim exercises that case.) -/
def meanQ (xs : List ℚ) : ℚ :=
  xs.sum / (xs.length : ℚ)

/-- `returns.mean() * self.trading_days`: annualized mean return per asset. -/
def mean_returns_of (f : PriceFrame) : List ℚ :=
  (List.range f.symbols.length).map (fun i => meanQ (colOf (returnsRows f) i) * tradingDays)

/-- One entry of the pandas sample covariance `returns.cov()` (ddof = 1). -/
def sampleCovEntry (xs ys : List ℚ) : ℚ :=
  let mx := meanQ xs
  let my := meanQ ys
  (List.zipWith (fun a b => (a - mx) * (b - my)) xs ys).sum / ((xs.length : ℚ) - 1)

/-- `_calculate_covariance_matrix` (lines 124-133): the sklearn LedoitWolf
shrinkage estimate when that external call succeeds, otherwise the sample
covariance fallback. -/
def calculate_covariance_matrix (lw : Option (List (List ℚ)))
    (rows : List (List ℚ)) (k : Nat) : List (List ℚ) :=
  match lw with
  | some m => m
  | none =>
      (List.range k).map (fun i =>
        (List.range k).map (fun j => sampleCovEntry (colOf rows i) (colOf rows j)))

/-- `_get_optimization_objective` (lines 135-142): conservative → min_risk,
aggressive → max_return, anything else (moderate) → max_sharpe. -/
def get_optimization_objective (risk_tolerance : RiskTolerance) : OptimizationObjective :=
  match risk_tolerance with
  | .conservative => OptimizationObjective.min_risk
  | .aggressive => OptimizationObjective.max_return
  | .moderate => OptimizationObjective.max_sharpe

/-- numpy float division: with warnings suppressed, a zero denominator
silently yields a non-finite double (±inf or nan) rather than raising;
`none` models that non-finite outcome. -/
def npDiv (a b : ℚ) : Option ℚ :=
  if b = 0 then none else some (a / b)

/-- The Sharpe-ratio line of `optimize` (line 47):
`(portfolio_return - self.risk_free_rate) / portfolio_volatility`,
with no guard on the denominator. -/
def sharpe_ratio (portfolio_return portfolio_volatility : ℚ) : Option ℚ :=
  npDiv (portfolio_return - riskFreeRate) portfolio_volatility

/-- Dot product; `zipWith` truncation matches numpy elementwise products of
equal-length vectors. -/
def dotQ (a b : List ℚ) : ℚ :=
  (List.zipWith (fun x y => x * y) a b).sum

/-- Matrix × vector, row-major. -/
def matVec (m : List (List ℚ)) (v : List ℚ) : List ℚ :=
  m.map (fun row => dotQ row v)

/-- `np.dot(weights.T, np.dot(cov_matrix, weights))`. -/
def portfolioVariance (cov : List (List ℚ)) (w : List ℚ) : ℚ :=
  dotQ w (matVec cov w)

/-- `_calculate_risk_contribution` (lines 240-245):
`weights[i] * np.dot(cov_matrix, weights)[i] / portfolio_variance`.
Plain ℚ division; the claims below only exercise it with a nonzero
portfolio variance, where it agrees with the source's numpy division. -/
def calculate_risk_contribution (weights : List ℚ) (cov : List (List ℚ))
    (asset_idx : Nat) : ℚ :=
  weights.getD asset_idx 0 * (matVec cov weights).getD asset_idx 0 / portfolioVariance cov weights

/-- `(returns * weights).sum(axis=1)`: the weighted daily portfolio-return
series. -/
def portfolioReturns (rows : List (List ℚ)) (weights : List ℚ) : List ℚ :=
  rows.map (fun r => dotQ r weights)

/-- `int(x)` on a nonnegative-or-negative double truncates toward zero. -/
def pyInt (q : ℚ) : Int :=
  Int.tdiv q.num (q.den : Int)

/-- `np.percentile(xs, 5)` with the default linear interpolation;
`none` when the series is empty (numpy then errors, which the caller's
`except` turns into the default). -/
def percentile5 (xs : List ℚ) : Option ℚ :=
  match xs.mergeSort (fun a b => a ≤ b) with
  | [] => none
  | y :: ys =>
      let s := y :: ys
      let n := s.length
      let pos : ℚ := ((n : ℚ) - 1) * 5 / 100
      let lo : Nat := pos.floor.toNat
      let frac : ℚ := pos - (lo : ℚ)
      some (s.getD lo 0 + frac * (s.getD (lo + 1) (s.getD (n - 1) 0) - s.getD lo 0))

/-- `_calculate_var` (lines 247-254): absolute 5th percentile of the
weighted portfolio returns, default 0.05 when the computation errors. -/
def calculate_var (rows : List (List ℚ)) (weights : List ℚ) : ℚ :=
  match percentile5 (portfolioReturns rows weights) with
  | some v => |v|
  | none => 5 / 100

/-- `(1 + portfolio_returns).cumprod()`. -/
def cumprod : List ℚ → List ℚ :=
  go 1
where
  go (acc : ℚ) : List ℚ → List ℚ
    | [] => []
    | x :: xs => (acc * x) :: go (acc * x) xs

/-- `cumulative.expanding().max()`. -/
def runningMax : List ℚ → List ℚ
  | [] => []
  | x :: xs => x :: go x xs
where
  go (m : ℚ) : List ℚ → List ℚ
    | [] => []
    | y :: ys => max m y :: go (max m y) ys

/-- Minimum of a series, `none` when empty. -/
def listMin : List ℚ → Option ℚ
  | [] => none
  | x :: xs => some (xs.foldl min x)

/-- `_calculate_max_drawdown` (lines 256-265): `abs(drawdown.min())` over
the running-maximum drawdowns; `none` models the NaN an empty series
produces. -/
def calculate_max_drawdown (rows : List (List ℚ)) (weights : List ℚ) : Option ℚ :=
  let pr := portfolioReturns rows weights
  let cumulative := cumprod (pr.map (fun r => 1 + r))
  let rm := runningMax cumulative
  let drawdown := List.zipWith (fun c m => (c - m) / m) cumulative rm
  (listMin drawdown).map (fun m => |m|)

/-- `np.var` with its default ddof = 0 (population variance). -/
def npVar (xs : List ℚ) : ℚ :=
  (xs.map (fun x => (x - meanQ xs) ^ 2)).sum / (xs.length : ℚ)

/-- `_calculate_portfolio_beta` (lines 267-290).  The benchmark series is a
parameter (SPY from yfinance); the pandas date intersection is modelled
positionally, so the overlap count is the shorter length.  Fewer than 50
overlapping observations → default 1.0; zero benchmark variance → 1.0;
otherwise `np.cov(..)[0,1] / np.var(market)`. -/
def calculate_portfolio_beta (rows : List (List ℚ)) (weights : List ℚ)
    (spy_returns : List ℚ) : ℚ :=
  let pr := portfolioReturns rows weights
  let m := min pr.length spy_returns.length
  if m < 50 then 1
  else
    let p := pr.take m
    let mk := spy_returns.take m
    let covariance := sampleCovEntry p mk
    let market_variance := npVar mk
    if 0 < market_variance then covariance / market_variance else 1

/-- `_generate_rebalancing_suggestions` (lines 292-314).  `np.max` /
`np.min` need a nonempty array (the source would raise on an empty or
all-nonpositive weight vector; genuine weight vectors sum to 1, so the
claims never reach that case and the model emits no suggestion there). -/
def generate_rebalancing_suggestions (weights : List ℚ)
    (risk_tolerance : RiskTolerance) : List String :=
  let s1 :=
    match weights with
    | [] => []
    | w :: ws =>
        if 2 / 5 < ws.foldl max w then
          [ "Consider reducing concentration in top holding to improve diversification"]
        else []
  let pos := weights.filter (fun w => 0 < w)
  let s2 :=
    match pos with
    | [] => []
    | p :: ps =>
        if ps.foldl min p < 2 / 100 then
          [ "Consider eliminating positions below 2% to reduce transaction costs"]
        else []
  let s3 :=
    match risk_tolerance with
    | .conservative => [ "Consider monthly rebalancing to maintain risk targets"]
    | .aggressive => [ "Quarterly rebalancing may be sufficient for growth-focused portfolio"]
    | .moderate => [ "Rebalance quarterly or when allocations drift more than 5% from targets"]
  s1 ++ s2 ++ s3

/-- `np.sum(weights ** 2)`, the Herfindahl-Hirschman index. -/
def hhiOf (weights : List ℚ) : ℚ :=
  (weights.map (fun w => w ^ 2)).sum

/-- `_calculate_diversification_score` (lines 316-325):
`clamp((1 - HHI) / (1 - 1/N), 0, 1)`.  For a single asset the source
divides 0.0 by 0.0 (nan, with numpy warnings suppressed); the theorems
below only consider at least two assets, where the ℚ model is exact. -/
def calculate_diversification_score (weights : List ℚ) : ℚ :=
  let hhi := hhiOf weights
  let max_hhi : ℚ := 1
  let min_hhi : ℚ := 1 / (weights.length : ℚ)
  let score := (max_hhi - hhi) / (max_hhi - min_hhi)
  max 0 (min 1 score)

/-- `AllocationRecommendation` of `models/portfolio_models.py`. -/
structure AllocationRecommendation where
  symbol : String
  company_name : String
  recommended_weight : ℚ
  recommended_shares : Int
  recommended_amount : ℚ
  expected_return : ℚ
  risk_contribution : ℚ
  sector : String
deriving DecidableEq, Repr

/-- `RiskMetrics` of `models/portfolio_models.py`.  `sharpe_ratio` and
`max_drawdown` are `Option ℚ`: `none` stands for the non-finite double the
source can store there. -/
structure RiskMetrics where
  portfolio_volatility : ℚ
  value_at_risk_95 : ℚ
  expected_return : ℚ
  sharpe_ratio : Option ℚ
  max_drawdown : Option ℚ
  beta : ℚ
deriving DecidableEq, Repr

/-- `PortfolioOptimizationResponse` of `models/portfolio_models.py`
(without the `generated_at` wall-clock timestamp). -/
structure PortfolioOptimizationResponse where
  allocations : List AllocationRecommendation
  risk_metrics : RiskMetrics
  total_investment : ℚ
  expected_annual_return : ℚ
  optimization_score : Option ℚ
  rebalancing_suggestions : List String
  diversification_score : ℚ
deriving DecidableEq, Repr

/-- The external collaborators of one optimization request: the yfinance
download, the sklearn LedoitWolf estimate (`none` = the call raised, so
the sample-covariance fallback runs), the scipy solver, numpy's sqrt
(idealized on exact rationals), current prices with the `get(symbol, 0)`
default folded in, company metadata with its "Unknown" defaults folded
in, and the SPY benchmark return series. -/
structure World where
  rawData : PriceFrame
  ledoitWolf : List (List ℚ) → Option (List (List ℚ))
  solver : OptimizationObjective → List ℚ → List (List ℚ) → List SolverConstraint → SolverOutcome
  npSqrt : ℚ → ℚ
  currentPrice : String → ℚ
  companyName : String → String
  companySector : String → String
  spyReturns : List ℚ

/-- The allocation loop of `optimize` (lines 53-72). -/
def build_allocations (world : World) (symbols : List String)
    (investment_amount : ℚ) (optimal_weights mean_rets : List ℚ)
    (cov_matrix : List (List ℚ)) : List AllocationRecommendation :=
  symbols.enum.map (fun p =>
    let i := p.1
    let symbol := p.2
    let weight := optimal_weights.getD i 0
    let allocation_amount := investment_amount * weight
    let current_price := world.currentPrice symbol
    { symbol := symbol
      company_name := world.companyName symbol
      recommended_weight := weight
      recommended_shares := if 0 < current_price then pyInt (allocation_amount / current_price) else 0
      recommended_amount := allocation_amount
      expected_return := mean_rets.getD i 0
      risk_contribution := calculate_risk_contribution optimal_weights cov_matrix i
      sector := world.companySector symbol })

/-- `PortfolioOptimizer.optimize` (lines 24-105), composed from the pieces
above.  An exception from the data fetch is logged by the `except` at
lines 103-105 and re-raised (`Except.error`).  Besides the response, the
logging side effects of the weight optimization (fallback log,
dropped-constraint warnings) are returned explicitly. -/
def optimize (world : World) (symbols : List String)
    (risk_tolerance : RiskTolerance) (investment_amount : ℚ)
    (constraints : List PortfolioConstraint) :
    Except String (PortfolioOptimizationResponse × OptLog × List String) :=
  match fetch_portfolio_data world.rawData with
  | Except.error e => Except.error e
  | Except.ok data =>
  let retRows := returnsRows data
  let mean_rets := mean_returns_of data
  let cov_matrix := calculate_covariance_matrix (world.ledoitWolf retRows) retRows data.symbols.length
  let objective := get_optimization_objective risk_tolerance
  let res := optimize_weights world.solver mean_rets cov_matrix objective constraints data.symbols
  let optimal_weights := res.1
  let portfolio_return := dotQ optimal_weights mean_rets
  let portfolio_volatility :=
    world.npSqrt (dotQ optimal_weights
      (matVec (cov_matrix.map (fun row => row.map (fun x => x * tradingDays))) optimal_weights))
  let sharpe := sharpe_ratio portfolio_return portfolio_volatility
  let allocations := build_allocations world symbols investment_amount optimal_weights mean_rets cov_matrix
  let risk_metrics : RiskMetrics :=
    { portfolio_volatility := portfolio_volatility
      value_at_risk_95 := calculate_var retRows optimal_weights
      expected_return := portfolio_return
      sharpe_ratio := sharpe
      max_drawdown := calculate_max_drawdown retRows optimal_weights
      beta := calculate_portfolio_beta retRows optimal_weights world.spyReturns }
  Except.ok
    ({ allocations := allocations
       risk_metrics := risk_metrics
       total_investment := investment_amount
       expected_annual_return := portfolio_return
       optimization_score := sharpe
       rebalancing_suggestions := generate_rebalancing_suggestions optimal_weights risk_tolerance
       diversification_score := calculate_diversification_score optimal_weights },
     res.2)

/-- The `/api/ai/portfolio/optimize` endpoint (main.py lines 142-159): it
forwards `symbols`, `risk_tolerance`, `investment_amount` and
`constraints` of the request to the optimizer — and nothing else; an
`Except.error` is what its handler turns into an HTTP 500. -/
def optimize_portfolio (world : World) (request : PortfolioOptimizationRequest) :
    Except String (PortfolioOptimizationResponse × OptLog × List String) :=
  optimize world request.symbols request.risk_tolerance request.investment_amount request.constraints

/-- The raw vector of the solver outcome (empty on an exception); the
success path of `_optimize_weights` returns exactly this vector. -/
def solverVec
    (solver : OptimizationObjective → List ℚ → List (List ℚ) → List SolverConstraint → SolverOutcome)
    (mean_returns : List ℚ) (cov_matrix : List (List ℚ))
    (objective : OptimizationObjective) (cl : List SolverConstraint) : List ℚ :=
  match solver objective mean_returns cov_matrix cl with
  | .ok _ x => x
  | .exn => []

/-! ### Helper lemmas -/

theorem equalWeight_length (n : Nat) : (equalWeight n).length = n := by
  simp [equalWeight]

theorem equalWeight_sum {n : Nat} (h : 0 < n) : (equalWeight n).sum = 1 := by
  have hn : (n : ℚ) ≠ 0 := by exact_mod_cast h.ne'
  rw [equalWeight, List.sum_replicate, nsmul_eq_mul, mul_one_div, div_self hn]

theorem validWeights_equalWeight {n : Nat} (h : 0 < n) :
    validWeights n (equalWeight n) := by
  refine ⟨equalWeight_length n, ?_, ?_⟩
  · intro w hw
    have hw' : w = 1 / (n : ℚ) := List.eq_of_mem_replicate hw
    subst hw'
    have hn : (0 : ℚ) < (n : ℚ) := by exact_mod_cast h
    constructor
    · positivity
    · rw [div_le_one hn]
      exact_mod_cast h
  · rw [equalWeight_sum h]
    norm_num

theorem addConstraint_eq (u : List String) (acc : List SolverConstraint × List String)
    (c : PortfolioConstraint) :
    addConstraint u acc c = (acc.1 ++ constraintContribution u c, acc.2 ++ constraintWarn u c) := by
  unfold constraintContribution constraintWarn addConstraint
  split_ifs with h1 h2
  · cases hg : get_loc u (c.symbol.getD "") <;> simp [hg]
  · cases hg : get_loc u (c.symbol.getD "") <;> simp [hg]
  · simp

theorem constraints_list_foldl (u : List String) (cs : List PortfolioConstraint) :
    ∀ acc : List SolverConstraint × List String,
      cs.foldl (addConstraint u) acc =
        (acc.1 ++ cs.flatMap (constraintContribution u),
         acc.2 ++ cs.flatMap (constraintWarn u)) := by
  induction cs with
  | nil => intro acc; simp
  | cons c rest ih =>
      intro acc
      rw [List.foldl_cons, ih, addConstraint_eq]
      simp [List.flatMap_cons, List.append_assoc]

theorem dropped_constraint_contribution (u : List String) (c : PortfolioConstraint)
    (habs : ∀ s : String, c.symbol = some s → get_loc u s = none) :
    constraintContribution u c = [] := by
  unfold constraintContribution addConstraint
  split_ifs with h1 h2
  · cases hsym : c.symbol with
    | none => rw [hsym] at h1; simp [truthy] at h1
    | some s =>
        simp only [hsym, Option.getD_some, habs s hsym]
  · cases hsym : c.symbol with
    | none => rw [hsym] at h2; simp [truthy] at h2
    | some s =>
        simp only [hsym, Option.getD_some, habs s hsym]
  · rfl

theorem dropped_constraint_warn (u : List String) (c : PortfolioConstraint)
    (s : String)
    (hc : c.ctype = "max_weight" ∨ c.ctype = "min_weight")
    (hsym : c.symbol = some s) (hne : s ≠ "")
    (habs : get_loc u s = none) :
    constraintWarn u c = [s] := by
  have ht : truthy c.symbol = true := by simp [hsym, truthy, hne]
  unfold constraintWarn addConstraint
  rcases hc with hc | hc
  · rw [if_pos ⟨hc, ht⟩, hsym, Option.getD_some, habs]
    rfl
  · have hmax : ¬(c.ctype = "max_weight" ∧ truthy c.symbol = true) := by
      rw [hc]; simp
    rw [if_neg hmax, if_pos ⟨hc, ht⟩, hsym, Option.getD_some, habs]
    rfl

/-! ### Claim theorems -/

/-- Claim C9: with the `equal_weight` objective and `N` symbols the
optimizer performs no solve — the result does not depend on the solver at
all — and returns exactly `w_i = 1/N` for every `i`. -/
theorem equal_weight_objective_no_solve
    (solver solver2 : OptimizationObjective → List ℚ → List (List ℚ) → List SolverConstraint → SolverOutcome)
    (mu : List ℚ) (cov : List (List ℚ)) (cs : List PortfolioConstraint)
    (u : List String) :
    optimize_weights solver mu cov OptimizationObjective.equal_weight cs u =
      optimize_weights solver2 mu cov OptimizationObjective.equal_weight cs u
    ∧ (optimize_weights solver mu cov OptimizationObjective.equal_weight cs u).1 =
      List.replicate mu.length (1 / (mu.length : ℚ)) :=
  ⟨rfl, rfl⟩

/-- Claim C2: when the solver fails to converge (`success = False`) or
raises a numerical exception, `_optimize_weights` returns exactly the
equal-weight vector, a failure log is produced, and no exception
propagates (the function is total and its value is the fallback, not an
error). -/
theorem solver_failure_returns_equal_weights
    (solver : OptimizationObjective → List ℚ → List (List ℚ) → List SolverConstraint → SolverOutcome)
    (mu : List ℚ) (cov : List (List ℚ)) (obj : OptimizationObjective)
    (cs : List PortfolioConstraint) (u : List String)
    (hobj : obj ≠ OptimizationObjective.equal_weight)
    (hfail : ∀ x, solver obj mu cov (constraints_list u cs).1 ≠ SolverOutcome.ok true x) :
    (optimize_weights solver mu cov obj cs u).1 = equalWeight mu.length
    ∧ (optimize_weights solver mu cov obj cs u).2.1 ≠ OptLog.noLog := by
  simp only [optimize_weights]
  cases obj with
  | equal_weight => exact absurd rfl hobj
  | max_return =>
      cases hs : solver OptimizationObjective.max_return mu cov (constraints_list u cs).1 with
      | ok success x =>
          cases success with
          | true => exact absurd hs (hfail x)
          | false => exact ⟨rfl, fun h => OptLog.noConfusion h⟩
      | exn => exact ⟨rfl, fun h => OptLog.noConfusion h⟩
  | min_risk =>
      cases hs : solver OptimizationObjective.min_risk mu cov (constraints_list u cs).1 with
      | ok success x =>
          cases success with
          | true => exact absurd hs (hfail x)
          | false => exact ⟨rfl, fun h => OptLog.noConfusion h⟩
      | exn => exact ⟨rfl, fun h => OptLog.noConfusion h⟩
  | max_sharpe =>
      cases hs : solver OptimizationObjective.max_sharpe mu cov (constraints_list u cs).1 with
      | ok success x =>
          cases success with
          | true => exact absurd hs (hfail x)
          | false => exact ⟨rfl, fun h => OptLog.noConfusion h⟩
      | exn => exact ⟨rfl, fun h => OptLog.noConfusion h⟩

/-- Witness for C2 at a concrete failing solve: two assets, objective
`max_return`, solver reporting `success = False`. -/
theorem solver_failure_returns_equal_weights_witness :
    (optimize_weights (fun _ _ _ _ => SolverOutcome.ok false [])
        [1/10, 1/5] [[1, 0], [0, 1]] OptimizationObjective.max_return [] ["A", "B"]).1 =
      equalWeight 2
    ∧ (optimize_weights (fun _ _ _ _ => SolverOutcome.ok false [])
        [1/10, 1/5] [[1, 0], [0, 1]] OptimizationObjective.max_return [] ["A", "B"]).2.1 ≠
      OptLog.noLog := by
  exact solver_failure_returns_equal_weights _ _ _ _ _ _ (by decide)
    (fun x hx => by simp at hx)

/-- Claim C1 (amended): the equal-weight/fallback paths return exactly the
equal-weight vector, which satisfies the sum/bounds invariant; but a
solver vector reported successful is returned as-is, with no invariant
validation — the result is always either the equal-weight vector or the
solver's raw vector. -/
theorem optimizer_invariant_only_on_fallback
    (solver : OptimizationObjective → List ℚ → List (List ℚ) → List SolverConstraint → SolverOutcome)
    (mu : List ℚ) (cov : List (List ℚ)) (obj : OptimizationObjective)
    (cs : List PortfolioConstraint) (u : List String)
    (h : 0 < mu.length) :
    validWeights mu.length (equalWeight mu.length)
    ∧ ((optimize_weights solver mu cov obj cs u).1 = equalWeight mu.length
       ∨ (optimize_weights solver mu cov obj cs u).1 =
           solverVec solver mu cov obj (constraints_list u cs).1) := by
  refine ⟨validWeights_equalWeight h, ?_⟩
  simp only [optimize_weights, solverVec]
  cases obj with
  | equal_weight => exact Or.inl rfl
  | max_return =>
      cases hs : solver OptimizationObjective.max_return mu cov (constraints_list u cs).1 with
      | ok success x => cases success with
          | true => exact Or.inr rfl
          | false => exact Or.inl rfl
      | exn => exact Or.inl rfl
  | min_risk =>
      cases hs : solver OptimizationObjective.min_risk mu cov (constraints_list u cs).1 with
      | ok success x => cases success with
          | true => exact Or.inr rfl
          | false => exact Or.inl rfl
      | exn => exact Or.inl rfl
  | max_sharpe =>
      cases hs : solver OptimizationObjective.max_sharpe mu cov (constraints_list u cs).1 with
      | ok success x => cases success with
          | true => exact Or.inr rfl
          | false => exact Or.inl rfl
      | exn => exact Or.inl rfl

/-- Witness for the amended C1 at a concrete input (one asset, solver
raising an exception). -/
theorem optimizer_invariant_only_on_fallback_witness :
    validWeights 1 (equalWeight 1)
    ∧ ((optimize_weights (fun _ _ _ _ => SolverOutcome.exn)
          [3/2] [[1]] OptimizationObjective.min_risk [] ["A"]).1 = equalWeight 1
       ∨ (optimize_weights (fun _ _ _ _ => SolverOutcome.exn)
          [3/2] [[1]] OptimizationObjective.min_risk [] ["A"]).1 =
           solverVec (fun _ _ _ _ => SolverOutcome.exn) [3/2] [[1]]
             OptimizationObjective.min_risk (constraints_list ["A"] []).1) := by
  exact optimizer_invariant_only_on_fallback (fun _ _ _ _ => SolverOutcome.exn)
    [3/2] [[1]] OptimizationObjective.min_risk [] ["A"] (by decide)

/-- Counterexample to C1 as stated: a solver that reports convergence with
the vector `[0.7, 0.7]` — sum 1.4, far beyond the 1e-4 tolerance — has
that vector returned as-is, not replaced by the equal-weight fallback. -/
theorem converged_vector_returned_unvalidated :
    (optimize_weights (fun _ _ _ _ => SolverOutcome.ok true [7/10, 7/10])
        [1/10, 1/5] [[1, 0], [0, 1]] OptimizationObjective.max_sharpe [] ["A", "B"]).1 =
      [7/10, 7/10]
    ∧ ¬ validWeights 2 [7/10, 7/10]
    ∧ ([7/10, 7/10] : List ℚ) ≠ equalWeight 2 := by
  refine ⟨rfl, ?_, ?_⟩
  · rintro ⟨-, -, hsum⟩
    rw [show ([7/10, 7/10] : List ℚ).sum - 1 = 2/5 by simp [List.sum_cons]; norm_num,
      abs_of_pos (by norm_num)] at hsum
    norm_num at hsum
  · intro he
    have h0 := congrArg (fun l => l.getD 0 0) he
    simp [equalWeight] at h0
    norm_num at h0

/-- Claim C3 (amended): a symbol with no usable history is never excluded
and no `DataUnavailableError` is surfaced — nor is anything silently
filled: `fillna(method='forward')` is an invalid pandas call, so
`_fetch_portfolio_data` raises `ValueError` for every frame (missing data
or not); the exception is logged and re-raised and the whole request fails
as an unclassified error. -/
theorem fetch_always_raises (raw : PriceFrame) :
    fetch_portfolio_data raw =
      Except.error "Invalid fill method. Expecting pad (ffill) or backfill (bfill). Got forward" :=
  rfl

/-- Counterexample to C3 as stated: for a frame in which the requested
symbol "ZZZZ" has no price history at all, the fetch raises the
fill-method `ValueError` — it neither returns a frame with the symbol
excluded nor raises a `DataUnavailableError`. -/
theorem missing_history_not_excluded :
    fetch_portfolio_data ⟨["AAPL", "ZZZZ"], [[some 1, some 2], [none, none]]⟩ =
      Except.error "Invalid fill method. Expecting pad (ffill) or backfill (bfill). Got forward" :=
  rfl

/-- Claim C4 (amended): the solver-ready constraint set always starts with
the Σw = 1 equality and then holds exactly each constraint's contribution:
one `value - w[i] >= 0` inequality per max_weight constraint whose symbol
is present in the universe, one `w[i] - value >= 0` per present-symbol
min_weight constraint — and nothing for a sector_limit constraint, which
the source ignores entirely. -/
theorem constraints_list_shape (u : List String) (cs : List PortfolioConstraint) :
    (constraints_list u cs).1 = SolverConstraint.eqSumOne :: cs.flatMap (constraintContribution u)
    ∧ (∀ c : PortfolioConstraint, c.ctype = "sector_limit" → constraintContribution u c = [])
    ∧ (∀ c : PortfolioConstraint, ∀ s : String, ∀ i : Nat,
        c.ctype = "max_weight" → c.symbol = some s → s ≠ "" → get_loc u s = some i →
        constraintContribution u c = [SolverConstraint.maxWeight i c.value])
    ∧ (∀ c : PortfolioConstraint, ∀ s : String, ∀ i : Nat,
        c.ctype = "min_weight" → c.symbol = some s → s ≠ "" → get_loc u s = some i →
        constraintContribution u c = [SolverConstraint.minWeight i c.value]) := by
  refine ⟨?_, ?_, ?_, ?_⟩
  · rw [constraints_list, constraints_list_foldl]
    simp
  · intro c hc
    have h1 : ¬(c.ctype = "max_weight" ∧ truthy c.symbol = true) := by rw [hc]; simp
    have h2 : ¬(c.ctype = "min_weight" ∧ truthy c.symbol = true) := by rw [hc]; simp
    simp only [constraintContribution, addConstraint, if_neg h1, if_neg h2]
  · intro c s i hc hs hne hg
    have ht : truthy c.symbol = true := by simp [hs, truthy, hne]
    have hcond : c.ctype = "max_weight" ∧ truthy c.symbol = true := ⟨hc, ht⟩
    unfold constraintContribution addConstraint
    rw [if_pos hcond, hs, Option.getD_some, hg]
    rfl
  · intro c s i hc hs hne hg
    have ht : truthy c.symbol = true := by simp [hs, truthy, hne]
    have hcond : c.ctype = "min_weight" ∧ truthy c.symbol = true := ⟨hc, ht⟩
    have hmax : ¬(c.ctype = "max_weight" ∧ truthy c.symbol = true) := by rw [hc]; simp
    unfold constraintContribution addConstraint
    rw [if_neg hmax, if_pos hcond, hs, Option.getD_some, hg]
    rfl

/-- Witness for the amended C4: universe ["A", "B"] with one max_weight
constraint on "A"; the constraint set is the equality followed by the
single inequality `0.3 - w[0] >= 0`. -/
theorem constraints_list_shape_witness :
    (constraints_list ["A", "B"] [⟨"max_weight", some "A", none, 3/10⟩]).1 =
      [SolverConstraint.eqSumOne, SolverConstraint.maxWeight 0 (3/10)]
    ∧ constraintContribution ["A", "B"] ⟨"max_weight", some "A", none, 3/10⟩ =
      [SolverConstraint.maxWeight 0 (3/10)] := by
  have h := constraints_list_shape ["A", "B"] [⟨"max_weight", some "A", none, 3/10⟩]
  have h2 := h.2.2.1 ⟨"max_weight", some "A", none, 3/10⟩ "A" 0 rfl rfl (by decide) (by decide)
  refine ⟨?_, h2⟩
  rw [h.1]
  simp only [List.flatMap_cons, List.flatMap_nil, List.append_nil]
  rw [h2]

/-- Counterexample to C4 as stated: a sector_limit constraint contributes
no inequality at all — the built set is just the Σw = 1 equality, with no
constraint bounding the sector's weight sum. -/
theorem sector_limit_produces_no_constraint :
    (constraints_list ["A", "B"] [⟨"sector_limit", none, some "Tech", 1/2⟩]).1 =
      [SolverConstraint.eqSumOne] :=
  rfl

/-- Claim C6: a max_weight/min_weight constraint whose symbol is absent
from the optimization universe is dropped (its symbol is recorded in the
logged warnings) and contributes no inequality; the request does not fail,
and — provided a converged solver vector satisfies the invariant — the
optimization still returns a weight vector satisfying the global sum and
bounds constraints (exactly so on every fallback path). -/
theorem absent_symbol_constraint_dropped
    (u : List String) (c : PortfolioConstraint) (cs1 cs2 : List PortfolioConstraint)
    (hc : c.ctype = "max_weight" ∨ c.ctype = "min_weight")
    (habs : ∀ s : String, c.symbol = some s → get_loc u s = none) :
    (constraints_list u (cs1 ++ c :: cs2)).1 = (constraints_list u (cs1 ++ cs2)).1
    ∧ (∀ s : String, c.symbol = some s → s ≠ "" →
        s ∈ (constraints_list u (cs1 ++ c :: cs2)).2)
    ∧ (∀ solver mu cov obj,
        (∀ x, solver obj mu cov (constraints_list u (cs1 ++ c :: cs2)).1 = SolverOutcome.ok true x →
          validWeights mu.length x) →
        0 < mu.length →
        validWeights mu.length (optimize_weights solver mu cov obj (cs1 ++ c :: cs2) u).1) := by
  have hdrop : constraintContribution u c = [] := dropped_constraint_contribution u c habs
  refine ⟨?_, ?_, ?_⟩
  · rw [constraints_list, constraints_list_foldl, constraints_list, constraints_list_foldl]
    simp [List.flatMap_append, List.flatMap_cons, hdrop]
  · intro s hs hne
    have hw : constraintWarn u c = [s] :=
      dropped_constraint_warn u c s hc hs hne (habs s hs)
    rw [constraints_list, constraints_list_foldl]
    simp only [List.flatMap_append, List.flatMap_cons]
    rw [hw]
    simp
  · intro solver mu cov obj hsol hn
    simp only [optimize_weights]
    cases obj with
    | equal_weight => exact validWeights_equalWeight hn
    | max_return =>
        cases hs : solver OptimizationObjective.max_return mu cov
            (constraints_list u (cs1 ++ c :: cs2)).1 with
        | ok success x =>
            cases success with
            | true => exact hsol x hs
            | false => exact validWeights_equalWeight hn
        | exn => exact validWeights_equalWeight hn
    | min_risk =>
        cases hs : solver OptimizationObjective.min_risk mu cov
            (constraints_list u (cs1 ++ c :: cs2)).1 with
        | ok success x =>
            cases success with
            | true => exact hsol x hs
            | false => exact validWeights_equalWeight hn
        | exn => exact validWeights_equalWeight hn
    | max_sharpe =>
        cases hs : solver OptimizationObjective.max_sharpe mu cov
            (constraints_list u (cs1 ++ c :: cs2)).1 with
        | ok success x =>
            cases success with
            | true => exact hsol x hs
            | false => exact validWeights_equalWeight hn
        | exn => exact validWeights_equalWeight hn

/-- Witness for C6: a max_weight constraint on the absent symbol "ZZZZ" is
dropped, its warning logged, and (with a non-converging solver forcing the
fallback) the returned vector satisfies the global constraints. -/
theorem absent_symbol_constraint_dropped_witness :
    (constraints_list ["A", "B"] [⟨"max_weight", some "ZZZZ", none, 3/10⟩]).1 =
      (constraints_list ["A", "B"] []).1
    ∧ "ZZZZ" ∈ (constraints_list ["A", "B"] [⟨"max_weight", some "ZZZZ", none, 3/10⟩]).2
    ∧ validWeights 2
        (optimize_weights (fun _ _ _ _ => SolverOutcome.ok false []) [1/10, 1/5] [[1, 0], [0, 1]]
          OptimizationObjective.max_return [⟨"max_weight", some "ZZZZ", none, 3/10⟩] ["A", "B"]).1 := by
  have h := absent_symbol_constraint_dropped ["A", "B"] ⟨"max_weight", some "ZZZZ", none, 3/10⟩ [] []
    (Or.inl rfl) (fun s hs => by injection hs with h'; subst h'; decide)
  exact ⟨h.1, h.2.1 "ZZZZ" rfl (by decide),
    h.2.2 (fun _ _ _ _ => SolverOutcome.ok false []) [1/10, 1/5] [[1, 0], [0, 1]]
      OptimizationObjective.max_return (fun x hx => by simp at hx) (by decide)⟩

/-- Claim C7: the diversification score equals
`clamp((1 - HHI)/(1 - 1/N), 0, 1)`; equal weights score exactly 1, the
fully concentrated vector `[1, 0, ..., 0]` scores exactly 0, and the score
is antitone in the HHI (strictly, within the HHI range a weight vector can
attain).  Stated for at least two assets — for a single asset the formula
itself (0/0) is undefined. -/
theorem diversification_score_spec (ws : List ℚ) (hn : 2 ≤ ws.length) :
    calculate_diversification_score ws =
      max 0 (min 1 ((1 - hhiOf ws) / (1 - 1 / (ws.length : ℚ))))
    ∧ calculate_diversification_score (equalWeight ws.length) = 1
    ∧ calculate_diversification_score (1 :: List.replicate (ws.length - 1) 0) = 0
    ∧ (∀ ws2 : List ℚ, ws2.length = ws.length → hhiOf ws ≤ hhiOf ws2 →
        calculate_diversification_score ws2 ≤ calculate_diversification_score ws)
    ∧ (∀ ws2 : List ℚ, ws2.length = ws.length →
        1 / (ws.length : ℚ) ≤ hhiOf ws → hhiOf ws < hhiOf ws2 → hhiOf ws2 ≤ 1 →
        calculate_diversification_score ws2 < calculate_diversification_score ws) := by
  have hn2 : (2 : ℚ) ≤ (ws.length : ℚ) := by exact_mod_cast hn
  have hnpos : (0 : ℚ) < (ws.length : ℚ) := by linarith
  have hinv : 1 / (ws.length : ℚ) < 1 := by
    rw [div_lt_one hnpos]; linarith
  have hd : 0 < 1 - 1 / (ws.length : ℚ) := by linarith
  refine ⟨rfl, ?_, ?_, ?_, ?_⟩
  · have hh : hhiOf (equalWeight ws.length) = 1 / (ws.length : ℚ) := by
      rw [hhiOf, equalWeight, List.map_replicate, List.sum_replicate, nsmul_eq_mul]
      field_simp
      ring
    simp only [calculate_diversification_score, equalWeight_length, hh]
    rw [div_self (ne_of_gt hd)]
    norm_num
  · have hlen : (1 :: List.replicate (ws.length - 1) (0 : ℚ)).length = ws.length := by
      simp only [List.length_cons, List.length_replicate]
      omega
    have hh1 : hhiOf (1 :: List.replicate (ws.length - 1) (0 : ℚ)) = 1 := by
      simp [hhiOf, List.map_replicate]
    simp only [calculate_diversification_score, hlen, hh1]
    rw [sub_self, zero_div]
    norm_num
  · intro ws2 hlen2 hhh
    simp only [calculate_diversification_score, hlen2]
    have hs : (1 - hhiOf ws2) / (1 - 1 / (ws.length : ℚ)) ≤
        (1 - hhiOf ws) / (1 - 1 / (ws.length : ℚ)) :=
      (div_le_div_iff_of_pos_right hd).mpr (by linarith)
    exact max_le_max le_rfl (min_le_min le_rfl hs)
  · intro ws2 hlen2 hlow hstrict hupper
    simp only [calculate_diversification_score, hlen2]
    have hs2nonneg : 0 ≤ (1 - hhiOf ws2) / (1 - 1 / (ws.length : ℚ)) :=
      div_nonneg (by linarith) hd.le
    have hs1le : (1 - hhiOf ws) / (1 - 1 / (ws.length : ℚ)) ≤ 1 := by
      rw [div_le_one hd]; linarith
    have hlt : (1 - hhiOf ws2) / (1 - 1 / (ws.length : ℚ)) <
        (1 - hhiOf ws) / (1 - 1 / (ws.length : ℚ)) :=
      (div_lt_div_iff_of_pos_right hd).mpr (by linarith)
    rw [min_eq_right (le_trans hlt.le hs1le), min_eq_right hs1le,
      max_eq_right hs2nonneg, max_eq_right (le_trans hs2nonneg hlt.le)]
    exact hlt

/-- Witness for C7 at two assets: equal weights score 1, the concentrated
vector scores 0, and the more concentrated `[1, 0]` scores no higher than
`[1/2, 1/2]`. -/
theorem diversification_score_spec_witness :
    calculate_diversification_score (equalWeight 2) = 1
    ∧ calculate_diversification_score (1 :: List.replicate 1 (0 : ℚ)) = 0
    ∧ calculate_diversification_score [1, 0] ≤ calculate_diversification_score [1/2, 1/2] := by
  have h := diversification_score_spec [1/2, 1/2] (by decide)
  refine ⟨h.2.1, h.2.2.1, ?_⟩
  refine h.2.2.2.1 [1, 0] rfl ?_
  simp only [hhiOf, List.map_cons, List.map_nil, List.sum_cons, List.sum_nil]
  norm_num

theorem dotQ_eq_sum_range (a b : List ℚ) (h : a.length = b.length) :
    ∑ i ∈ Finset.range a.length, a.getD i 0 * b.getD i 0 = dotQ a b := by
  induction a generalizing b with
  | nil => simp [dotQ]
  | cons x xs ih =>
      cases b with
      | nil => simp at h
      | cons y ys =>
          have h' : xs.length = ys.length := by simpa using h
          rw [List.length_cons, Finset.sum_range_succ']
          simp only [List.getD_cons_succ, List.getD_cons_zero]
          rw [ih ys h']
          simp [dotQ]
          ring

/-- Claim C8: for any weight vector and covariance matrix with nonzero
portfolio variance, the per-asset risk contributions
`w[i] * (Σw)[i] / (wᵗΣw)` sum to exactly 1. -/
theorem risk_contributions_sum_to_one (w : List ℚ) (cov : List (List ℚ))
    (hlen : cov.length = w.length) (hV : portfolioVariance cov w ≠ 0) :
    ∑ i ∈ Finset.range w.length, calculate_risk_contribution w cov i = 1 := by
  have hm : w.length = (matVec cov w).length := by simp [matVec, hlen]
  calc ∑ i ∈ Finset.range w.length, calculate_risk_contribution w cov i
      = (∑ i ∈ Finset.range w.length, w.getD i 0 * (matVec cov w).getD i 0) /
          portfolioVariance cov w := by
        rw [Finset.sum_div]
        rfl
    _ = dotQ w (matVec cov w) / portfolioVariance cov w := by
        rw [dotQ_eq_sum_range w (matVec cov w) hm]
    _ = 1 := div_self hV

/-- Witness for C8: two assets, identity covariance, equal weights —
variance 1/2 and contributions summing to 1. -/
theorem risk_contributions_sum_to_one_witness :
    portfolioVariance [[1, 0], [0, 1]] [1/2, 1/2] ≠ 0
    ∧ ∑ i ∈ Finset.range 2, calculate_risk_contribution [1/2, 1/2] [[1, 0], [0, 1]] i = 1 := by
  have hV : portfolioVariance [[(1 : ℚ), 0], [0, 1]] [1/2, 1/2] ≠ 0 := by
    simp [portfolioVariance, dotQ, matVec]
  exact ⟨hV, risk_contributions_sum_to_one [1/2, 1/2] [[1, 0], [0, 1]] rfl hV⟩

/-- Claim C5 (amended): the Sharpe ratio equals
`(expected_return - 0.02) / portfolio_volatility` whenever the volatility
is nonzero; at zero volatility the source performs the division anyway —
there is no guard — and the result is a silently produced non-finite
double (modelled as `none`), not 0 and not an exception. -/
theorem sharpe_ratio_no_zero_guard (r v : ℚ) :
    (v ≠ 0 → sharpe_ratio r v = some ((r - riskFreeRate) / v))
    ∧ sharpe_ratio r 0 = none := by
  constructor
  · intro hv
    simp [sharpe_ratio, npDiv, hv]
  · simp [sharpe_ratio, npDiv]

/-- Witness for the amended C5: volatility 1/2 gives the finite quotient;
volatility 0 gives the non-finite result. -/
theorem sharpe_ratio_no_zero_guard_witness :
    ((1 : ℚ)/2 ≠ 0 ∧ sharpe_ratio (1/10) (1/2) = some ((1/10 - riskFreeRate) / (1/2)))
    ∧ sharpe_ratio (1/10) 0 = none :=
  ⟨⟨by norm_num, (sharpe_ratio_no_zero_guard (1/10) (1/2)).1 (by norm_num)⟩,
    (sharpe_ratio_no_zero_guard (1/10) 0).2⟩

/-- Counterexample to C5 as stated: at volatility 0 the reported Sharpe
ratio is not the claimed 0 — the unguarded division produces a non-finite
value. -/
theorem sharpe_zero_volatility_not_zero :
    sharpe_ratio (1/10) 0 ≠ some 0 ∧ sharpe_ratio (1/10) 0 = none := by
  constructor
  · intro h
    simp [sharpe_ratio, npDiv] at h
  · simp [sharpe_ratio, npDiv]

/-- Claim C10: the optimize endpoint never passes the request's
`objective` (nor `rebalance_frequency`) to the optimizer — two requests
identical except for the objective produce identical responses — and the
optimizer derives its objective solely from the risk tolerance:
conservative → min_risk, aggressive → max_return, moderate → max_sharpe. -/
theorem objective_field_ignored
    (world : World) (r1 r2 : PortfolioOptimizationRequest)
    (h1 : r1.symbols = r2.symbols) (h2 : r1.risk_tolerance = r2.risk_tolerance)
    (h3 : r1.investment_amount = r2.investment_amount)
    (h4 : r1.constraints = r2.constraints) :
    optimize_portfolio world r1 = optimize_portfolio world r2
    ∧ get_optimization_objective RiskTolerance.conservative = OptimizationObjective.min_risk
    ∧ get_optimization_objective RiskTolerance.aggressive = OptimizationObjective.max_return
    ∧ get_optimization_objective RiskTolerance.moderate = OptimizationObjective.max_sharpe := by
  refine ⟨?_, rfl, rfl, rfl⟩
  unfold optimize_portfolio
  rw [h1, h2, h3, h4]

/-- A concrete environment for the C10 witness. -/
def worldA : World :=
  { rawData := ⟨["A", "B"], [[some 1, some 2], [some 2, some 1]]⟩
    ledoitWolf := fun _ => none
    solver := fun _ _ _ _ => SolverOutcome.ok false []
    npSqrt := fun q => q
    currentPrice := fun _ => 10
    companyName := fun s => s
    companySector := fun _ => "Unknown"
    spyReturns := [] }

/-- A concrete request asking for `max_sharpe`. -/
def requestA : PortfolioOptimizationRequest :=
  { symbols := ["A", "B"]
    risk_tolerance := RiskTolerance.moderate
    investment_amount := 1000
    objective := OptimizationObjective.max_sharpe
    constraints := []
    rebalance_frequency := "monthly" }

/-- The same request asking for `equal_weight` instead. -/
def requestB : PortfolioOptimizationRequest :=
  { requestA with objective := OptimizationObjective.equal_weight }

/-- Witness for C10: the two requests differ in their objective yet
produce identical responses. -/
theorem objective_field_ignored_witness :
    requestA.objective ≠ requestB.objective
    ∧ optimize_portfolio worldA requestA = optimize_portfolio worldA requestB :=
  ⟨by decide, (objective_field_ignored worldA requestA requestB rfl rfl rfl rfl).1⟩

end StockTrading
